import Mathlib

/-!
Shallow embedding of the reservation/scheduling core of the bikestore
marketplace backend (src/main.py, src/models.py).

Timestamps are modelled as natural numbers counting microseconds since a
fixed epoch: Python naive `datetime` values have microsecond resolution,
and every comparison the source performs (`<`, `>`, `between`,
`total_seconds`) is faithfully reproduced on this representation.

Prices are stored as `Int`: the source keeps them in a float column but
never performs arithmetic on them in the modelled code paths — they are
only copied (the checkout price snapshot), so any value type with
decidable equality represents them faithfully.

Statuses are kept as the exact strings the source uses
("RESERVADO", "RETIRADO", "CANCELADO", "PENDENTE", "ACEITO",
"REJEITADA").

Relational tables become Lists kept in insertion order; autoincrement
primary keys become explicit counters in the `DB` record;
`query(...).first()` becomes `List.find?` and `query(...).all()` becomes
`List.filter`.
-/

namespace BikeStore

abbrev usPerSec : Nat := 1000000

abbrev dayUs : Nat := 86400 * usPerSec

/-- models.py `Produto`: id, nome_produto, preco, loja_id, quantidade_estoque. -/
structure Produto where
  id : Nat
  nome_produto : String
  preco : Int
  loja_id : Nat
  quantidade_estoque : Int
  deriving DecidableEq, Repr

/-- models.py `Carrinho`: one cart line (cliente_id, produto_id, quantidade). -/
structure Carrinho where
  id : Nat
  cliente_id : Nat
  produto_id : Nat
  quantidade : Int
  deriving DecidableEq, Repr

/-- models.py `ReservaProduto`: a product reservation.  `data_limite` is a
nullable column, hence `Option`. -/
structure ReservaProduto where
  id : Nat
  cliente_id : Nat
  loja_id : Nat
  data_reserva : Nat
  status : String
  data_limite : Option Nat
  deriving DecidableEq, Repr

/-- models.py `ItemReserva`: one reservation line item with its price
snapshot `preco_unitario`. -/
structure ItemReserva where
  id : Nat
  reserva_id : Nat
  produto_id : Nat
  quantidade : Int
  preco_unitario : Int
  deriving DecidableEq, Repr

/-- models.py `Servico`: only the fields the modelled operations read. -/
structure Servico where
  id : Nat
  loja_id : Nat
  deriving DecidableEq, Repr

/-- models.py `ServicoHorario`: a bookable slot of a service. -/
structure ServicoHorario where
  id : Nat
  servico_id : Nat
  horario : Nat
  is_disponivel : Bool
  deriving DecidableEq, Repr

/-- models.py `ReservaServico`: a service appointment; `data_horario` is a
denormalized copy of the slot timestamp. -/
structure ReservaServico where
  id : Nat
  cliente_id : Nat
  loja_id : Nat
  servico_id : Nat
  data_horario : Nat
  status : String
  deriving DecidableEq, Repr

/-- The relational store.  `clientes` keeps only the customer ids (the
modelled handlers read nothing else from that table).  The `next…`
counters model the autoincrement primary keys. -/
structure DB where
  clientes : List Nat
  produtos : List Produto
  carrinho : List Carrinho
  reservasProdutos : List ReservaProduto
  itensReserva : List ItemReserva
  servicos : List Servico
  servicosHorarios : List ServicoHorario
  reservasServicos : List ReservaServico
  nextProdutoId : Nat
  nextCarrinhoId : Nat
  nextReservaProdutoId : Nat
  nextItemReservaId : Nat
  nextHorarioId : Nat
  nextReservaServicoId : Nat
  deriving DecidableEq, Repr

/-- In-place mutation of the first row matched by an ORM
`query(...).first()`: replace the first element satisfying `p`. -/
def updateFirst {α : Type} (p : α → Bool) (f : α → α) : List α → List α
  | [] => []
  | x :: xs => if p x then f x :: xs else x :: updateFirst p f xs

/-- `db.delete(row)` on the first row matched by a query. -/
def removeFirst {α : Type} (p : α → Bool) : List α → List α
  | [] => []
  | x :: xs => if p x then xs else x :: removeFirst p xs

/-- `db.query(Produto).filter(Produto.id == pid).first()`. -/
def findProdutoIn (produtos : List Produto) (pid : Nat) : Option Produto :=
  produtos.find? (fun p => p.id == pid)

def findProduto (db : DB) (pid : Nat) : Option Produto :=
  findProdutoIn db.produtos pid

/-- Stock on hand of a product, when it exists. -/
def stockOf (db : DB) (pid : Nat) : Option Int :=
  (findProduto db pid).map (fun p => p.quantidade_estoque)

/-- main.py lines 394-402, the mutation at the heart of
`cadastrar_produto_com_imagem`: after the store lookup and the
presence/image checks succeed, the product row is inserted with
`quantidade_estoque=int(quantidade_estoque)` — the source performs no
sign check on the submitted stock count. -/
def cadastrar_produto (db : DB) (loja_id : Nat) (nome_produto : String)
    (preco : Int) (quantidade_estoque : Int) : DB :=
  { db with
    produtos := db.produtos ++
      [⟨db.nextProdutoId, nome_produto, preco, loja_id, quantidade_estoque⟩],
    nextProdutoId := db.nextProdutoId + 1 }

/-- Outcome of `marcar_retirada` / `cliente_marcar_retirada`.  Every
constructor carries the resulting store: the source mutates nothing on
the error paths. -/
inductive MarcarResult where
  | naoEncontrada (db : DB)
  | statusInvalido (db : DB)
  | foraDoPrazo (db : DB)
  | ok (db : DB)
  deriving DecidableEq, Repr

def MarcarResult.db : MarcarResult → DB
  | .naoEncontrada d => d
  | .statusInvalido d => d
  | .foraDoPrazo d => d
  | .ok d => d

/-- main.py 497-535 `marcar_retirada` (store path): look the reservation
up by id and store, require status RESERVADO, set status RETIRADO.
No time-window check. -/
def marcar_retirada (db : DB) (loja_id reserva_id : Nat) : MarcarResult :=
  match db.reservasProdutos.find?
      (fun r => r.id == reserva_id && r.loja_id == loja_id) with
  | none => .naoEncontrada db
  | some r =>
    if r.status ≠ "RESERVADO" then .statusInvalido db
    else .ok { db with reservasProdutos :=
      (updateFirst (fun x => x.id == reserva_id && x.loja_id == loja_id)
        (fun x => { x with status := "RETIRADO" }) db.reservasProdutos) }

/-- main.py 1370-1414 `cliente_marcar_retirada` (customer path): look the
reservation up by id and customer, require status RESERVADO, fail when
`agora > data_reserva + 4 days`, otherwise set status RETIRADO. -/
def cliente_marcar_retirada (db : DB) (cliente_id reserva_id : Nat)
    (agora : Nat) : MarcarResult :=
  match db.reservasProdutos.find?
      (fun r => r.id == reserva_id && r.cliente_id == cliente_id) with
  | none => .naoEncontrada db
  | some r =>
    if r.status ≠ "RESERVADO" then .statusInvalido db
    else if r.data_reserva + 4 * dayUs < agora then .foraDoPrazo db
    else .ok { db with reservasProdutos :=
      (updateFirst (fun x => x.id == reserva_id && x.cliente_id == cliente_id)
        (fun x => { x with status := "RETIRADO" }) db.reservasProdutos) }

/-- Outcome of `finalizar_carrinho`.  Error constructors carry the store
unchanged: in main.py 1306-1326 every failing `return` happens before
any mutation. -/
inductive CheckoutResult where
  | vazio (db : DB)
  | produtoInexistente (db : DB)
  | lojasDiferentes (db : DB)
  | estoqueInsuficiente (db : DB) (nome : String)
  | ok (db : DB) (reserva_id : Nat) (data_limite : Nat)
  deriving DecidableEq, Repr

def CheckoutResult.db : CheckoutResult → DB
  | .vazio d => d
  | .produtoInexistente d => d
  | .lojasDiferentes d => d
  | .estoqueInsuficiente d _ => d
  | .ok d _ _ => d

/-- Outcome of the validation loop of main.py 1312-1326: walk the cart
lines carrying the `loja_id` accumulator (starts as `None`, set from the
first line's product); per line: product must exist, must match the
accumulated store, and the line quantity must not exceed its stock —
exactly in that order. -/
inductive Validacao where
  | produtoInexistente
  | lojasDiferentes
  | estoqueInsuficiente (nome : String)
  | ok (loja_id : Option Nat)
  deriving DecidableEq, Repr

def validarItens (db : DB) (loja_id : Option Nat) :
    List Carrinho → Validacao
  | [] => .ok loja_id
  | it :: rest =>
    match findProduto db it.produto_id with
    | none => .produtoInexistente
    | some p =>
      match loja_id with
      | none =>
        if p.quantidade_estoque < it.quantidade then
          .estoqueInsuficiente p.nome_produto
        else validarItens db (some p.loja_id) rest
      | some lid =>
        if p.loja_id ≠ lid then .lojasDiferentes
        else if p.quantidade_estoque < it.quantidade then
          .estoqueInsuficiente p.nome_produto
        else validarItens db (some lid) rest

/-- One step of the stock-abatement loop (main.py 1329-1332):
`produto.quantidade_estoque -= item.quantidade` on the first product row
matching the line's product id. -/
def abaterItem (produtos : List Produto) (it : Carrinho) : List Produto :=
  updateFirst (fun p => p.id == it.produto_id)
    (fun p => { p with quantidade_estoque := p.quantidade_estoque - it.quantidade })
    produtos

/-- The line-item creation loop (main.py 1347-1357): re-query each
product and snapshot its current price into `preco_unitario`.  The
`none` branch is unreachable on the success path (validation proved
every product present and abatement removes none); it skips, standing in
for the Python attribute error that cannot fire there. -/
def criarItens (db : DB) (rid : Nat) (nextId : Nat) :
    List Carrinho → List ItemReserva
  | [] => []
  | it :: rest =>
    match findProduto db it.produto_id with
    | none => criarItens db rid nextId rest
    | some p =>
      ⟨nextId, rid, p.id, it.quantidade, p.preco⟩ ::
        criarItens db rid (nextId + 1) rest

/-- main.py 1286-1368 `finalizar_carrinho`: gather the customer's cart
lines; fail on empty cart; run the validation loop; then decrement stock
per line, insert the reservation (status RESERVADO,
`data_limite = agora + 2 days`), insert one line item per cart line, and
delete the customer's cart lines.  Returns the new reservation id and
its expiry. -/
def finalizar_carrinho (db : DB) (agora : Nat) (cliente_id : Nat) :
    CheckoutResult :=
  let itens := db.carrinho.filter (fun c => c.cliente_id == cliente_id)
  if itens.isEmpty then .vazio db
  else
    match validarItens db none itens with
    | .produtoInexistente => .produtoInexistente db
    | .lojasDiferentes => .lojasDiferentes db
    | .estoqueInsuficiente nome => .estoqueInsuficiente db nome
    | .ok loja_id =>
      let produtos1 := itens.foldl abaterItem db.produtos
      let rid := db.nextReservaProdutoId
      let reserva : ReservaProduto :=
        ⟨rid, cliente_id, loja_id.getD 0, agora, "RESERVADO",
          some (agora + 2 * dayUs)⟩
      let db1 : DB :=
        { db with
          produtos := produtos1,
          reservasProdutos := db.reservasProdutos ++ [reserva],
          nextReservaProdutoId := rid + 1 }
      let novosItens := criarItens db1 rid db.nextItemReservaId itens
      .ok
        { db1 with
          itensReserva := db.itensReserva ++ novosItens,
          nextItemReservaId := db.nextItemReservaId + novosItens.length,
          carrinho := db.carrinho.filter (fun c => ¬ c.cliente_id == cliente_id) }
        rid (agora + 2 * dayUs)

/-- Filter of the first sweep query (main.py 557-561):
`data_limite < agora`; a NULL `data_limite` never satisfies the SQL
comparison. -/
def expirada2d (agora : Nat) (r : ReservaProduto) : Bool :=
  match r.data_limite with
  | some d => d < agora
  | none => false

/-- Filter of the second sweep query (main.py 571-575):
`data_reserva + 4 days < agora`. -/
def expirada4d (agora : Nat) (r : ReservaProduto) : Bool :=
  r.data_reserva + 4 * dayUs < agora

/-- `reserva.itens` relationship: the line items of one reservation. -/
def itensDe (db : DB) (rid : Nat) : List ItemReserva :=
  db.itensReserva.filter (fun it => it.reserva_id == rid)

/-- One step of the restock loop (main.py 565-567 and 579-581):
`produto.quantidade_estoque += item.quantidade` on the first product row
matching the item's product id. -/
def restockItem (produtos : List Produto) (it : ItemReserva) :
    List Produto :=
  updateFirst (fun p => p.id == it.produto_id)
    (fun p => { p with quantidade_estoque := p.quantidade_estoque + it.quantidade })
    produtos

/-- One pass of `cancelar_expiradas`: materialize the filtered list,
set status CANCELADO on those rows, and add every line item's quantity
back to its product's stock.  Both passes of main.py 556-582 share this
shape; they differ only in the expiry filter. -/
def sweepPass (db : DB) (loja_id agora : Nat)
    (exp : Nat → ReservaProduto → Bool) : DB :=
  { db with
    reservasProdutos := db.reservasProdutos.map
      (fun r =>
        if r.loja_id == loja_id && r.status == "RESERVADO" && exp agora r
        then { r with status := "CANCELADO" } else r),
    produtos := (db.reservasProdutos.filter
        (fun r => r.loja_id == loja_id && r.status == "RESERVADO" &&
          exp agora r)).foldl
      (fun ps r => (itensDe db r.id).foldl restockItem ps) db.produtos }

/-- main.py 537-584 `cancelar_expiradas`: the 2-day pass runs first, the
4-day pass then runs against the updated store (so a reservation
canceled by the first pass, no longer RESERVADO, is excluded from the
second scan). -/
def cancelar_expiradas (db : DB) (loja_id agora : Nat) : DB :=
  sweepPass (sweepPass db loja_id agora expirada2d) loja_id agora expirada4d

/-- Outcome of `adicionar_item_carrinho`.  `erroInterno` stands for the
unhandled attribute error main.py 1183 raises when the first cart line's
product no longer exists (the request dies with 500 before any
mutation, so the store is unchanged). -/
inductive AddCartResult where
  | clienteNaoEncontrado (db : DB)
  | produtoNaoEncontrado (db : DB)
  | outraLoja (db : DB)
  | erroInterno (db : DB)
  | ok (db : DB)
  deriving DecidableEq, Repr

def AddCartResult.db : AddCartResult → DB
  | .clienteNaoEncontrado d => d
  | .produtoNaoEncontrado d => d
  | .outraLoja d => d
  | .erroInterno d => d
  | .ok d => d

/-- The merge-or-insert tail of `adicionar_item_carrinho`
(main.py 1186-1205): if the customer already has a line for this
product, add the requested quantity to it; otherwise insert a new
line.  The source performs no sign or zero check on `quantidade`. -/
def adicionarMerge (db : DB) (cliente_id produto_id : Nat)
    (quantidade : Int) : AddCartResult :=
  match db.carrinho.find?
      (fun c => c.cliente_id == cliente_id && c.produto_id == produto_id) with
  | some _ => .ok { db with carrinho :=
      (updateFirst
        (fun c => c.cliente_id == cliente_id && c.produto_id == produto_id)
        (fun c => { c with quantidade := c.quantidade + quantidade })
        db.carrinho) }
  | none => .ok { db with
      carrinho := db.carrinho ++
        [⟨db.nextCarrinhoId, cliente_id, produto_id, quantidade⟩],
      nextCarrinhoId := db.nextCarrinhoId + 1 }

/-- main.py 1124-1205 `adicionar_item_carrinho`: customer and product
must exist; when the cart is non-empty, the first line's product must
belong to the same store as the product being added; then merge or
insert. -/
def adicionar_item_carrinho (db : DB) (cliente_id produto_id : Nat)
    (quantidade : Int) : AddCartResult :=
  if ¬ db.clientes.contains cliente_id then .clienteNaoEncontrado db
  else
    match findProduto db produto_id with
    | none => .produtoNaoEncontrado db
    | some produto =>
      match db.carrinho.filter (fun c => c.cliente_id == cliente_id) with
      | [] => adicionarMerge db cliente_id produto_id quantidade
      | primeiro :: _ =>
        match findProduto db primeiro.produto_id with
        | none => .erroInterno db
        | some p0 =>
          if p0.loja_id ≠ produto.loja_id then .outraLoja db
          else adicionarMerge db cliente_id produto_id quantidade

/-- Outcome of `remover_item_carrinho`. -/
inductive RemoveCartResult where
  | clienteNaoEncontrado (db : DB)
  | itemNaoEncontrado (db : DB)
  | ok (db : DB)
  deriving DecidableEq, Repr

def RemoveCartResult.db : RemoveCartResult → DB
  | .clienteNaoEncontrado d => d
  | .itemNaoEncontrado d => d
  | .ok d => d

/-- main.py 1207-1251 `remover_item_carrinho`: customer must exist, the
(customer, product) line must exist, and that line is deleted. -/
def remover_item_carrinho (db : DB) (cliente_id produto_id : Nat) :
    RemoveCartResult :=
  if ¬ db.clientes.contains cliente_id then .clienteNaoEncontrado db
  else
    match db.carrinho.find?
        (fun c => c.cliente_id == cliente_id && c.produto_id == produto_id) with
    | none => .itemNaoEncontrado db
    | some _ => .ok { db with carrinho :=
        (removeFirst
          (fun c => c.cliente_id == cliente_id && c.produto_id == produto_id)
          db.carrinho) }

/-- The duplicate-slot query of main.py 798-801 (autoflush makes rows
added earlier in the same loop visible to it). -/
def slotExiste (slots : List ServicoHorario) (servico_id h : Nat) : Bool :=
  slots.any (fun x => x.servico_id == servico_id && x.horario == h)

/-- main.py 778-813, the loop of `criar_horarios_servico` after the
service lookup.  Each list entry models one submitted string:
`none` is a string `datetime.fromisoformat` rejects (skipped silently by
the `except ValueError: continue`), `some h` the timestamp it parses to.
An entry whose slot already exists is skipped; otherwise a slot with
`is_disponivel=True` is inserted. -/
def criar_horarios_servico (db : DB) (servico_id : Nat) :
    List (Option Nat) → DB
  | [] => db
  | none :: rest => criar_horarios_servico db servico_id rest
  | some h :: rest =>
    if slotExiste db.servicosHorarios servico_id h then
      criar_horarios_servico db servico_id rest
    else
      criar_horarios_servico
        { db with
          servicosHorarios := db.servicosHorarios ++
            [⟨db.nextHorarioId, servico_id, h, true⟩],
          nextHorarioId := db.nextHorarioId + 1 }
        servico_id rest

/-- `horario_disponivel.horario.date()` rendered as the start of the
timestamp's day: main.py 1512 builds `datetime(y, m, d, 0, 0, 0)`. -/
def dayStart (t : Nat) : Nat := t / dayUs * dayUs

/-- Upper bound of the same-day `between` (main.py 1513):
`datetime(y, m, d, 23, 59, 59)` — the day start plus 86399 whole
seconds, with the microsecond field 0. -/
def dayEndSec (t : Nat) : Nat := dayStart t + 86399 * usPerSec

/-- Outcome of `agendar_servico`. -/
inductive AgendarResult where
  | clienteNaoEncontrado (db : DB)
  | servicoNaoEncontrado (db : DB)
  | horarioIndisponivel (db : DB)
  | mesmoDia (db : DB)
  | ok (db : DB) (reserva_id : Nat)
  deriving DecidableEq, Repr

def AgendarResult.db : AgendarResult → DB
  | .clienteNaoEncontrado d => d
  | .servicoNaoEncontrado d => d
  | .horarioIndisponivel d => d
  | .mesmoDia d => d
  | .ok d _ => d

/-- main.py 1450-1532 `agendar_servico`: customer and service must
exist; the slot is looked up by id, service and `is_disponivel=True`;
the same-day guard queries the customer's appointments (any status) with
`data_horario between day 00:00:00 and day 23:59:59`; on success an
appointment with status PENDENTE and the slot's timestamp is inserted
and the slot is flipped unavailable. -/
def agendar_servico (db : DB) (cliente_id servico_id horario_id : Nat) :
    AgendarResult :=
  if ¬ db.clientes.contains cliente_id then .clienteNaoEncontrado db
  else
    match db.servicos.find? (fun s => s.id == servico_id) with
    | none => .servicoNaoEncontrado db
    | some servico =>
      match db.servicosHorarios.find?
          (fun x => x.id == horario_id && x.servico_id == servico_id &&
            x.is_disponivel) with
      | none => .horarioIndisponivel db
      | some h =>
        if (db.reservasServicos.filter
            (fun r => r.cliente_id == cliente_id &&
              decide (dayStart h.horario ≤ r.data_horario) &&
              decide (r.data_horario ≤ dayEndSec h.horario))).isEmpty
        then
          .ok
            { db with
              reservasServicos := db.reservasServicos ++
                [⟨db.nextReservaServicoId, cliente_id, servico.loja_id,
                  servico_id, h.horario, "PENDENTE"⟩],
              servicosHorarios :=
                (updateFirst
                  (fun x => x.id == horario_id && x.servico_id == servico_id &&
                    x.is_disponivel)
                  (fun x => { x with is_disponivel := false })
                  db.servicosHorarios),
              nextReservaServicoId := db.nextReservaServicoId + 1 }
            db.nextReservaServicoId
        else .mesmoDia db

/-- Outcome of `cancelar_reserva`. -/
inductive CancelarResult where
  | naoEncontrada (db : DB)
  | jaTerminal (db : DB)
  | muitoTarde (db : DB)
  | statusInvalido (db : DB)
  | ok (db : DB)
  deriving DecidableEq, Repr

def CancelarResult.db : CancelarResult → DB
  | .naoEncontrada d => d
  | .jaTerminal d => d
  | .muitoTarde d => d
  | .statusInvalido d => d
  | .ok d => d

/-- main.py 1534-1590 `cancelar_reserva`: look the appointment up by id
and customer; fail if status is CANCELADO or REJEITADA; fail if
`(data_horario - agora).total_seconds() < 3600` (in microseconds:
the signed difference is below 3600 s); fail if status is not PENDENTE
or ACEITO; otherwise set status CANCELADO and flip the first slot of the
same service with the matching timestamp back to available — when no
slot matches, the flip silently does nothing and the cancellation still
succeeds. -/
def cancelar_reserva (db : DB) (cliente_id reserva_id agora : Nat) :
    CancelarResult :=
  match db.reservasServicos.find?
      (fun r => r.id == reserva_id && r.cliente_id == cliente_id) with
  | none => .naoEncontrada db
  | some r =>
    if r.status == "CANCELADO" || r.status == "REJEITADA" then .jaTerminal db
    else if (r.data_horario : Int) - (agora : Int) < 3600 * (usPerSec : Int)
    then .muitoTarde db
    else if ¬ (r.status == "PENDENTE" || r.status == "ACEITO") then
      .statusInvalido db
    else
      .ok
        { db with
          reservasServicos :=
            (updateFirst
              (fun x => x.id == reserva_id && x.cliente_id == cliente_id)
              (fun x => { x with status := "CANCELADO" })
              db.reservasServicos),
          servicosHorarios :=
            (updateFirst
              (fun x => x.servico_id == r.servico_id &&
                x.horario == r.data_horario)
              (fun x => { x with is_disponivel := true })
              db.servicosHorarios) }

/-- The spec's reading of the same-day rule ("whose date component
equals the slot's date"), for comparison with the `between` range the
source actually queries: two timestamps fall on the same calendar day
when they lie in the same 24-hour bucket. -/
def sameCalendarDay (a b : Nat) : Bool := a / dayUs == b / dayUs

/-- An empty store, used by the concrete evaluations below. -/
def dbVazio : DB := ⟨[], [], [], [], [], [], [], [], 1, 1, 1, 1, 1, 1⟩

def nomeProdutoTeste : String := "produto"

/-- Concrete run of `marcar_retirada_paths`: one fresh RESERVADO
reservation, clock inside the 4-day window; the customer's pickup and
the store's pickup both succeed, and after 4 days the customer path is
rejected. -/
def dbRetirada : DB :=
  ⟨[1], [], [], [⟨1, 1, 1, 0, "RESERVADO", some (2 * dayUs)⟩], [], [], [],
    [], 1, 1, 2, 1, 1, 1⟩

/-- Concrete run of `cancelar_reserva_paths`: one PENDENTE appointment
at 02:00; canceling 30 minutes before the slot fails TooLateToCancel,
canceling 2 hours before succeeds and the matching slot becomes
available again. -/
def dbCancelamento : DB :=
  ⟨[1], [], [], [], [], [⟨1, 1⟩], [⟨1, 1, 7200 * usPerSec, false⟩],
    [⟨1, 1, 1, 1, 7200 * usPerSec, "PENDENTE"⟩], 1, 1, 1, 1, 2, 2⟩

/-- Store with a two-store cart: checkout must fail MixedStoreCart. -/
def dbMisto : DB :=
  ⟨[1], [⟨1, nomeProdutoTeste, 10, 1, 5⟩, ⟨2, nomeProdutoTeste, 20, 2, 5⟩],
    [⟨1, 1, 1, 3⟩, ⟨2, 1, 2, 1⟩], [], [], [], [], [], 3, 3, 1, 1, 1, 1⟩

/-- Store with one cart line asking for more than the stock on hand. -/
def dbInsuficiente : DB :=
  ⟨[1], [⟨1, nomeProdutoTeste, 10, 1, 2⟩], [⟨1, 1, 1, 3⟩], [], [], [], [],
    [], 2, 2, 1, 1, 1, 1⟩

/-- A store holding one available slot at 10:00 of day zero and one
existing appointment of the same customer on that same calendar day,
timestamped 23:59:59.000001 — one microsecond past the upper bound of
the source's same-day `between` range. -/
def dbMesmoDia : DB :=
  ⟨[1], [], [], [], [], [⟨1, 1⟩], [⟨1, 1, 36000 * usPerSec, true⟩],
    [⟨1, 1, 1, 1, 86399 * usPerSec + 1, "PENDENTE"⟩], 1, 1, 1, 1, 2, 2⟩

/-- The store after the booking that C7 says must have been refused. -/
def dbMesmoDiaDepois : DB :=
  ⟨[1], [], [], [], [], [⟨1, 1⟩], [⟨1, 1, 36000 * usPerSec, false⟩],
    [⟨1, 1, 1, 1, 86399 * usPerSec + 1, "PENDENTE"⟩,
      ⟨2, 1, 1, 1, 36000 * usPerSec, "PENDENTE"⟩], 1, 1, 1, 1, 2, 3⟩

/-- Concrete run of `agendar_between_check`: with no prior appointment
in the between range... the booking succeeds and locks the slot; with a
prior appointment inside the range it is refused. -/
def dbAgendaLivre : DB :=
  ⟨[1], [], [], [], [], [⟨1, 1⟩], [⟨1, 1, 36000 * usPerSec, true⟩], [],
    1, 1, 1, 1, 2, 1⟩

/-- The implicit cart invariant: no customer holds two cart lines for
the same product. -/
def CartUnique (db : DB) : Prop :=
  (db.carrinho.map (fun c => (c.cliente_id, c.produto_id))).Nodup

instance (db : DB) : Decidable (CartUnique db) := by
  unfold CartUnique
  infer_instance

/-- A one-line cart for the concrete run of `carrinho_unicidade`. -/
def dbCarrinhoUm : DB :=
  ⟨[1], [⟨1, nomeProdutoTeste, 10, 1, 5⟩], [⟨1, 1, 1, 2⟩], [], [], [], [],
    [], 2, 2, 1, 1, 1, 1⟩

/-- Total quantity the line items in `itens` hold for product `pid`. -/
def somaItens (itens : List ItemReserva) (pid : Nat) : Int :=
  ((itens.filter (fun it => it.produto_id == pid)).map
    (fun it => it.quantidade)).sum

/-- Total quantity `cancelar_expiradas` gives back to product `pid`:
one contribution per RESERVADO reservation of the store that satisfies
either expiry condition. -/
def restockTotal (db : DB) (loja_id agora pid : Nat) : Int :=
  ((db.reservasProdutos.filter
      (fun r => r.loja_id == loja_id && r.status == "RESERVADO" &&
        (expirada2d agora r || expirada4d agora r))).map
    (fun r => somaItens (itensDe db r.id) pid)).sum

/-- A store with one reservation expired under the 2-day rule, one
expired only under the 4-day hard cutoff, and one already picked up. -/
def dbVarredura : DB :=
  ⟨[1], [⟨1, nomeProdutoTeste, 10, 1, 5⟩, ⟨2, nomeProdutoTeste, 20, 1, 7⟩],
    [],
    [⟨1, 1, 1, 0, "RESERVADO", some 10⟩,
      ⟨2, 1, 1, 0, "RESERVADO", some (10 * dayUs)⟩,
      ⟨3, 1, 1, 0, "RETIRADO", some 10⟩],
    [⟨1, 1, 1, 3, 10⟩, ⟨2, 2, 2, 4, 20⟩, ⟨3, 3, 1, 9, 10⟩],
    [], [], [], 3, 1, 4, 4, 1, 1⟩

/-- Total quantity the cart lines in `itens` request of product
`pid`. -/
def somaCarrinho (itens : List Carrinho) (pid : Nat) : Int :=
  ((itens.filter (fun c => c.produto_id == pid)).map
    (fun c => c.quantidade)).sum

/-- Concrete run of `checkout_sucesso`: one customer, one product with
stock 5, one cart line asking 3.  Checkout reserves, stock drops to 2,
the price 10 is snapshotted, the cart empties. -/
def dbCompra : DB :=
  ⟨[1], [⟨1, nomeProdutoTeste, 10, 1, 5⟩], [⟨1, 1, 1, 3⟩], [], [], [], [],
    [], 2, 2, 1, 1, 1, 1⟩

/-- C3: the spec's invariant says every product's stock quantity is
non-negative before and after every operation.  The code violates it at
product registration: `cadastrar_produto_com_imagem` (main.py 394-400)
stores `int(quantidade_estoque)` without any sign check, so submitting
the form value -3 creates a product whose stock is -3.  Starting from
the empty store (where the invariant trivially holds), one registration
ends with a negative stock. -/
theorem negative_stock_after_cadastro :
    (∀ p ∈ dbVazio.produtos, 0 ≤ p.quantidade_estoque) ∧
    stockOf (cadastrar_produto dbVazio 1 nomeProdutoTeste 10 (-3)) 1 =
      some (-3) ∧
    ∃ p ∈ (cadastrar_produto dbVazio 1 nomeProdutoTeste 10 (-3)).produtos,
      p.quantidade_estoque < 0 := by
  refine ⟨by decide, by decide, ?_⟩
  exact ⟨⟨1, nomeProdutoTeste, 10, 1, -3⟩, by decide, by decide⟩

/-- C6: for a reservation with status RESERVADO, the customer's pickup
path fails once more than 4 days have passed since creation and
otherwise sets status RETIRADO, the store's pickup path sets status
RETIRADO with no time limit, and both paths reject any other status.
(main.py 497-535 and 1370-1414.) -/
theorem marcar_retirada_paths (db : DB) (cid lid rid agora : Nat)
    (r : ReservaProduto)
    (hcli : db.reservasProdutos.find?
      (fun x => x.id == rid && x.cliente_id == cid) = some r)
    (hloja : db.reservasProdutos.find?
      (fun x => x.id == rid && x.loja_id == lid) = some r) :
    (r.status = "RESERVADO" →
      (r.data_reserva + 4 * dayUs < agora →
        cliente_marcar_retirada db cid rid agora = .foraDoPrazo db) ∧
      (¬ r.data_reserva + 4 * dayUs < agora →
        cliente_marcar_retirada db cid rid agora =
          .ok { db with reservasProdutos :=
            (updateFirst (fun x => x.id == rid && x.cliente_id == cid)
              (fun x => { x with status := "RETIRADO" })
              db.reservasProdutos) }) ∧
      marcar_retirada db lid rid =
        .ok { db with reservasProdutos :=
          (updateFirst (fun x => x.id == rid && x.loja_id == lid)
            (fun x => { x with status := "RETIRADO" })
            db.reservasProdutos) }) ∧
    (r.status ≠ "RESERVADO" →
      cliente_marcar_retirada db cid rid agora = .statusInvalido db ∧
      marcar_retirada db lid rid = .statusInvalido db) := by
  unfold cliente_marcar_retirada marcar_retirada
  rw [hcli, hloja]
  constructor
  · intro hs
    refine ⟨fun h4 => ?_, fun h4 => ?_, ?_⟩
    · simp [hs, h4]
    · simp [hs, h4]
    · simp [hs]
  · intro hs
    simp [hs]

theorem marcar_retirada_paths_witness :
    cliente_marcar_retirada dbRetirada 1 1 0 =
      .ok { dbRetirada with reservasProdutos :=
        (updateFirst (fun x => x.id == 1 && x.cliente_id == 1)
          (fun x => { x with status := "RETIRADO" })
          dbRetirada.reservasProdutos) } ∧
    cliente_marcar_retirada dbRetirada 1 1 (4 * dayUs + 1) =
      .foraDoPrazo dbRetirada ∧
    marcar_retirada dbRetirada 1 1 =
      .ok { dbRetirada with reservasProdutos :=
        (updateFirst (fun x => x.id == 1 && x.loja_id == 1)
          (fun x => { x with status := "RETIRADO" })
          dbRetirada.reservasProdutos) } := by
  have h := marcar_retirada_paths dbRetirada 1 1 1 0
    ⟨1, 1, 1, 0, "RESERVADO", some (2 * dayUs)⟩ (by decide) (by decide)
  have h4 := marcar_retirada_paths dbRetirada 1 1 1 (4 * dayUs + 1)
    ⟨1, 1, 1, 0, "RESERVADO", some (2 * dayUs)⟩ (by decide) (by decide)
  exact ⟨((h.1 rfl).2.1 (by decide)), ((h4.1 rfl).1 (by decide)),
    (h.1 rfl).2.2⟩

/-- When no row matches, the in-place update of a query result touches
nothing. -/
theorem updateFirst_of_find?_none {α : Type} (p : α → Bool) (f : α → α)
    (l : List α) (h : l.find? p = none) : updateFirst p f l = l := by
  induction l with
  | nil => rfl
  | cons x xs ih =>
    cases hp : p x with
    | true => simp [List.find?_cons, hp] at h
    | false =>
      rw [List.find?_cons, hp] at h
      simp [updateFirst, hp, ih h]

/-- C8: canceling a service appointment fails with AlreadyTerminal when
its status is CANCELADO or REJEITADA, fails with TooLateToCancel when
the stored slot time minus the clock is under one hour, and otherwise
(status PENDENTE or ACEITO) sets the status to CANCELADO and flips the
first slot of the same service with the matching timestamp back to
available — when no slot matches, the flip touches nothing and the
cancellation still succeeds.  (main.py 1534-1590.) -/
theorem cancelar_reserva_paths (db : DB) (cid rid agora : Nat)
    (r : ReservaServico)
    (hfind : db.reservasServicos.find?
      (fun x => x.id == rid && x.cliente_id == cid) = some r) :
    (r.status = "CANCELADO" ∨ r.status = "REJEITADA" →
      cancelar_reserva db cid rid agora = .jaTerminal db) ∧
    (r.status = "PENDENTE" ∨ r.status = "ACEITO" →
      ((r.data_horario : Int) - (agora : Int) < 3600 * (usPerSec : Int) →
        cancelar_reserva db cid rid agora = .muitoTarde db) ∧
      (¬ (r.data_horario : Int) - (agora : Int) < 3600 * (usPerSec : Int) →
        cancelar_reserva db cid rid agora =
          .ok { db with
            reservasServicos :=
              (updateFirst (fun x => x.id == rid && x.cliente_id == cid)
                (fun x => { x with status := "CANCELADO" })
                db.reservasServicos),
            servicosHorarios :=
              (updateFirst
                (fun x => x.servico_id == r.servico_id &&
                  x.horario == r.data_horario)
                (fun x => { x with is_disponivel := true })
                db.servicosHorarios) } ∧
        (db.servicosHorarios.find?
            (fun x => x.servico_id == r.servico_id &&
              x.horario == r.data_horario) = none →
          (updateFirst
            (fun x => x.servico_id == r.servico_id &&
              x.horario == r.data_horario)
            (fun x => { x with is_disponivel := true })
            db.servicosHorarios) = db.servicosHorarios))) := by
  unfold cancelar_reserva
  rw [hfind]
  dsimp only
  constructor
  · intro hs
    rcases hs with hs | hs <;> simp [hs]
  · intro hs
    refine ⟨fun hlate => ?_, fun hlate => ⟨?_, ?_⟩⟩
    · rw [if_neg (by rcases hs with hs | hs <;> simp [hs]), if_pos hlate]
    · rw [if_neg (by rcases hs with hs | hs <;> simp [hs]), if_neg hlate,
        if_neg (by rcases hs with hs | hs <;> simp [hs])]
    · intro hnone
      exact updateFirst_of_find?_none _ _ _ hnone

theorem cancelar_reserva_paths_witness :
    cancelar_reserva dbCancelamento 1 1 (5400 * usPerSec) =
      .muitoTarde dbCancelamento ∧
    cancelar_reserva dbCancelamento 1 1 0 =
      .ok { dbCancelamento with
        reservasServicos :=
          (updateFirst (fun x => x.id == 1 && x.cliente_id == 1)
            (fun x => { x with status := "CANCELADO" })
            dbCancelamento.reservasServicos),
        servicosHorarios :=
          (updateFirst
            (fun x => x.servico_id == 1 && x.horario == 7200 * usPerSec)
            (fun x => { x with is_disponivel := true })
            dbCancelamento.servicosHorarios) } := by
  have hlate := cancelar_reserva_paths dbCancelamento 1 1 (5400 * usPerSec)
    ⟨1, 1, 1, 1, 7200 * usPerSec, "PENDENTE"⟩ (by decide)
  have hok := cancelar_reserva_paths dbCancelamento 1 1 0
    ⟨1, 1, 1, 1, 7200 * usPerSec, "PENDENTE"⟩ (by decide)
  exact ⟨(hlate.2 (Or.inl rfl)).1 (by decide),
    ((hok.2 (Or.inl rfl)).2 (by decide)).1⟩

/-- C2: whenever checkout fails because the cart mixes stores or because
some line's quantity exceeds its product's stock, the store is returned
unchanged — no stock is touched, no reservation or line item is created,
and the cart is intact (main.py 1306-1326: every failing return precedes
any mutation). -/
theorem checkout_failure_preserves_state (db : DB) (agora cid : Nat) :
    (∀ db2, finalizar_carrinho db agora cid = .lojasDiferentes db2 →
      db2 = db) ∧
    (∀ db2 nome,
      finalizar_carrinho db agora cid = .estoqueInsuficiente db2 nome →
      db2 = db) := by
  constructor
  · intro db2 h
    unfold finalizar_carrinho at h
    simp only [] at h
    split at h
    · exact absurd h (by simp)
    · split at h <;> simp_all
  · intro db2 nome h
    unfold finalizar_carrinho at h
    simp only [] at h
    split at h
    · exact absurd h (by simp)
    · split at h <;> simp_all

theorem checkout_failure_preserves_state_witness :
    finalizar_carrinho dbMisto 0 1 = .lojasDiferentes dbMisto ∧
    finalizar_carrinho dbInsuficiente 0 1 =
      .estoqueInsuficiente dbInsuficiente nomeProdutoTeste ∧
    dbMisto = dbMisto ∧ dbInsuficiente = dbInsuficiente := by
  refine ⟨by decide, by decide, ?_, ?_⟩
  · exact (checkout_failure_preserves_state dbMisto 0 1).1 dbMisto (by decide)
  · exact (checkout_failure_preserves_state dbInsuficiente 0 1).2
      dbInsuficiente nomeProdutoTeste (by decide)

theorem slotExiste_append (a b : List ServicoHorario) (sid h : Nat) :
    slotExiste (a ++ b) sid h = (slotExiste a sid h || slotExiste b sid h) := by
  simp [slotExiste, List.any_append]

/-- Structure of one `criar_horarios_servico` run: the existing slots
are kept as a prefix and every appended slot belongs to the requested
service, is available, comes from a parsed entry of the submitted list,
and did not exist before; no timestamp is appended twice. -/
theorem criar_horarios_append (db : DB) (sid : Nat)
    (hs : List (Option Nat)) :
    ∃ novos,
      (criar_horarios_servico db sid hs).servicosHorarios =
        db.servicosHorarios ++ novos ∧
      (∀ x ∈ novos, x.servico_id = sid ∧ x.is_disponivel = true ∧
        some x.horario ∈ hs ∧
        slotExiste db.servicosHorarios sid x.horario = false) ∧
      (novos.map (fun x => x.horario)).Nodup := by
  induction hs generalizing db with
  | nil => exact ⟨[], by simp [criar_horarios_servico]⟩
  | cons e rest ih =>
    match e with
    | none =>
      obtain ⟨novos, h1, h2, h3⟩ := ih db
      exact ⟨novos, by simpa [criar_horarios_servico] using h1,
        fun x hx => by
          obtain ⟨a, b, c, d⟩ := h2 x hx
          exact ⟨a, b, List.mem_cons_of_mem _ c, d⟩, h3⟩
    | some h =>
      by_cases hex : slotExiste db.servicosHorarios sid h = true
      · obtain ⟨novos, h1, h2, h3⟩ := ih db
        refine ⟨novos, ?_, fun x hx => ?_, h3⟩
        · simpa [criar_horarios_servico, hex] using h1
        · obtain ⟨a, b, c, d⟩ := h2 x hx
          exact ⟨a, b, List.mem_cons_of_mem _ c, d⟩
      · set novo : ServicoHorario := ⟨db.nextHorarioId, sid, h, true⟩ with hnovo
        set db1 : DB :=
          { db with
            servicosHorarios := db.servicosHorarios ++ [novo],
            nextHorarioId := db.nextHorarioId + 1 } with hdb1
        obtain ⟨novos, h1, h2, h3⟩ := ih db1
        have hslots : db1.servicosHorarios = db.servicosHorarios ++ [novo] := rfl
        refine ⟨novo :: novos, ?_, ?_, ?_⟩
        · have : (criar_horarios_servico db sid (some h :: rest)) =
            criar_horarios_servico db1 sid rest := by
            simp [criar_horarios_servico, hex, hdb1, hnovo]
          rw [this, h1, hslots, List.append_assoc]
          rfl
        · intro x hx
          rcases List.mem_cons.mp hx with hx | hx
          · subst hx
            exact ⟨rfl, rfl, List.mem_cons_self _ _,
              by simpa using hex⟩
          · obtain ⟨a, b, c, d⟩ := h2 x hx
            rw [hslots, slotExiste_append] at d
            refine ⟨a, b, List.mem_cons_of_mem _ c, ?_⟩
            simpa using (Bool.or_eq_false_iff.mp d).1
        · refine List.Nodup.cons ?_ h3
          intro hmem
          simp only [List.mem_map] at hmem
          obtain ⟨x, hx, hxh⟩ := hmem
          obtain ⟨a, b, c, d⟩ := h2 x hx
          rw [hslots, slotExiste_append] at d
          have : slotExiste [novo] sid x.horario = true := by
            simp [slotExiste, hnovo, hxh]
          rw [this] at d
          simp at d

/-- Slots only accumulate: an existing (service, timestamp) pair keeps
existing after any `criar_horarios_servico` run. -/
theorem criar_horarios_mono (db : DB) (sid : Nat) (hs : List (Option Nat))
    (h0 : Nat) (hex : slotExiste db.servicosHorarios sid h0 = true) :
    slotExiste (criar_horarios_servico db sid hs).servicosHorarios sid h0 =
      true := by
  obtain ⟨novos, h1, -, -⟩ := criar_horarios_append db sid hs
  rw [h1, slotExiste_append, hex, Bool.true_or]

/-- After a run, every parsed entry of the submitted list has a slot. -/
theorem criar_horarios_cobre (db : DB) (sid : Nat) (hs : List (Option Nat))
    (h0 : Nat) (hmem : some h0 ∈ hs) :
    slotExiste (criar_horarios_servico db sid hs).servicosHorarios sid h0 =
      true := by
  induction hs generalizing db with
  | nil => cases hmem
  | cons e rest ih =>
    match e with
    | none =>
      rcases List.mem_cons.mp hmem with hmem | hmem
      · cases hmem
      · exact (by simpa [criar_horarios_servico] using ih db hmem :)
    | some h =>
      by_cases hex : slotExiste db.servicosHorarios sid h = true
      · rcases List.mem_cons.mp hmem with hmem | hmem
        · have : h0 = h := Option.some.inj hmem
          subst this
          simpa [criar_horarios_servico, hex] using
            criar_horarios_mono db sid rest h0 hex
        · simpa [criar_horarios_servico, hex] using ih db hmem
      · set db1 : DB :=
          { db with
            servicosHorarios := db.servicosHorarios ++
              [⟨db.nextHorarioId, sid, h, true⟩],
            nextHorarioId := db.nextHorarioId + 1 } with hdb1
        have hstep : criar_horarios_servico db sid (some h :: rest) =
            criar_horarios_servico db1 sid rest := by
          simp [criar_horarios_servico, hex, hdb1]
        rcases List.mem_cons.mp hmem with hmem | hmem
        · have : h0 = h := Option.some.inj hmem
          subst this
          have : slotExiste db1.servicosHorarios sid h0 = true := by
            simp [hdb1, slotExiste_append, slotExiste]
          rw [hstep]
          exact criar_horarios_mono db1 sid rest h0 this
        · rw [hstep]
          exact ih db1 hmem

/-- Running the slot-creation loop twice with the same list changes
nothing the second time. -/
theorem criar_horarios_idem (db : DB) (sid : Nat)
    (hs : List (Option Nat)) :
    criar_horarios_servico (criar_horarios_servico db sid hs) sid hs =
      criar_horarios_servico db sid hs := by
  suffices h : ∀ grande : List (Option Nat),
      (∀ h0, some h0 ∈ hs → some h0 ∈ grande) →
      criar_horarios_servico (criar_horarios_servico db sid grande) sid hs =
        criar_horarios_servico db sid grande by
    exact h hs (fun _ hm => hm)
  induction hs with
  | nil => intro grande _; rfl
  | cons e rest ih =>
    intro grande hsub
    cases e with
    | none =>
      have hrec := ih grande (fun h0 hm => hsub h0 (List.mem_cons_of_mem _ hm))
      simpa [criar_horarios_servico] using hrec
    | some h =>
      have hex : slotExiste
          (criar_horarios_servico db sid grande).servicosHorarios sid h =
          true :=
        criar_horarios_cobre db sid grande h (hsub h (List.mem_cons_self _ _))
      calc criar_horarios_servico (criar_horarios_servico db sid grande) sid
            (some h :: rest)
          = criar_horarios_servico (criar_horarios_servico db sid grande) sid
            rest := by simp [criar_horarios_servico, hex]
        _ = criar_horarios_servico db sid grande :=
            ih grande (fun h0 hm => hsub h0 (List.mem_cons_of_mem _ hm))

/-- C9: `criar_horarios_servico` (main.py 778-813) processes each
submitted entry independently and never fails: malformed strings
(`none`) and timestamps whose slot already exists are skipped silently,
every remaining timestamp yields a new slot with availability true, no
timestamp is inserted twice, and running the loop twice with the same
list is the same as running it once. -/
theorem criar_horarios_comportamento (db : DB) (sid : Nat)
    (hs : List (Option Nat)) :
    (∃ novos,
      (criar_horarios_servico db sid hs).servicosHorarios =
        db.servicosHorarios ++ novos ∧
      (∀ x ∈ novos, x.servico_id = sid ∧ x.is_disponivel = true ∧
        some x.horario ∈ hs ∧
        slotExiste db.servicosHorarios sid x.horario = false) ∧
      (novos.map (fun x => x.horario)).Nodup) ∧
    (∀ h0, some h0 ∈ hs →
      slotExiste (criar_horarios_servico db sid hs).servicosHorarios sid h0 =
        true) ∧
    criar_horarios_servico (criar_horarios_servico db sid hs) sid hs =
      criar_horarios_servico db sid hs :=
  ⟨criar_horarios_append db sid hs,
    fun h0 hm => criar_horarios_cobre db sid hs h0 hm,
    criar_horarios_idem db sid hs⟩

/-- Concrete run of `criar_horarios_comportamento`: a list with a
malformed entry and a duplicated timestamp yields exactly one slot per
distinct parsed timestamp, all available. -/
theorem criar_horarios_comportamento_witness :
    some 5 ∈ ([some 5, none, some 5, some 7] : List (Option Nat)) ∧
    slotExiste (criar_horarios_servico dbVazio 1
        [some 5, none, some 5, some 7]).servicosHorarios 1 5 = true := by
  refine ⟨by decide, ?_⟩
  exact (criar_horarios_comportamento dbVazio 1
    [some 5, none, some 5, some 7]).2.1 5 (by decide)

/-- C7 (amended): when the customer and service exist and the slot is
available and belongs to the service, booking fails with
DoubleBookingSameDay exactly when the customer already holds an
appointment — of any status — whose timestamp lies in the inclusive
range from the slot's day at 00:00:00.000000 up to the slot's day at
23:59:59.000000 (the `between` bounds main.py 1509-1515 queries, whose
upper bound is a whole second); otherwise booking succeeds, appends an
appointment with status PENDENTE carrying the slot's timestamp, and
flips the slot unavailable. -/
theorem agendar_between_check (db : DB) (cid sid hid : Nat)
    (servico : Servico) (h : ServicoHorario)
    (hc : db.clientes.contains cid = true)
    (hs : db.servicos.find? (fun s => s.id == sid) = some servico)
    (hh : db.servicosHorarios.find?
      (fun x => x.id == hid && x.servico_id == sid && x.is_disponivel) =
      some h) :
    ((db.reservasServicos.filter
        (fun r => r.cliente_id == cid &&
          decide (dayStart h.horario ≤ r.data_horario) &&
          decide (r.data_horario ≤ dayEndSec h.horario))) ≠ [] →
      agendar_servico db cid sid hid = .mesmoDia db) ∧
    ((db.reservasServicos.filter
        (fun r => r.cliente_id == cid &&
          decide (dayStart h.horario ≤ r.data_horario) &&
          decide (r.data_horario ≤ dayEndSec h.horario))) = [] →
      agendar_servico db cid sid hid =
        .ok
          { db with
            reservasServicos := db.reservasServicos ++
              [⟨db.nextReservaServicoId, cid, servico.loja_id, sid,
                h.horario, "PENDENTE"⟩],
            servicosHorarios :=
              (updateFirst
                (fun x => x.id == hid && x.servico_id == sid &&
                  x.is_disponivel)
                (fun x => { x with is_disponivel := false })
                db.servicosHorarios),
            nextReservaServicoId := db.nextReservaServicoId + 1 }
          db.nextReservaServicoId) := by
  unfold agendar_servico
  rw [if_neg (not_not_intro hc), hs]
  dsimp only
  rw [hh]
  dsimp only
  constructor
  · intro hne
    rw [if_neg (by simpa [List.isEmpty_iff] using hne)]
  · intro heq
    rw [if_pos (by simp [List.isEmpty_iff, heq])]

/-- C7 counterexample: customer 1 already holds an appointment whose
timestamp falls on the same calendar day as slot 1 (both on day zero),
yet `agendar_servico` does not fail with DoubleBookingSameDay — it
books: the existing appointment sits at 23:59:59.000001, one microsecond
beyond the `between` upper bound `datetime(y, m, d, 23, 59, 59)` of
main.py 1513, so the same-day query misses it. -/
theorem agendar_mesmo_dia_contraexemplo :
    dbMesmoDia.reservasServicos =
      [⟨1, 1, 1, 1, 86399 * usPerSec + 1, "PENDENTE"⟩] ∧
    sameCalendarDay (86399 * usPerSec + 1) (36000 * usPerSec) = true ∧
    agendar_servico dbMesmoDia 1 1 1 = .ok dbMesmoDiaDepois 2 := by
  refine ⟨rfl, by decide, by decide⟩

theorem agendar_between_check_witness :
    agendar_servico dbAgendaLivre 1 1 1 =
      .ok
        { dbAgendaLivre with
          reservasServicos := dbAgendaLivre.reservasServicos ++
            [⟨1, 1, 1, 1, 36000 * usPerSec, "PENDENTE"⟩],
          servicosHorarios :=
            (updateFirst
              (fun x => x.id == 1 && x.servico_id == 1 && x.is_disponivel)
              (fun x => { x with is_disponivel := false })
              dbAgendaLivre.servicosHorarios),
          nextReservaServicoId := 2 } 1 := by
  exact (agendar_between_check dbAgendaLivre 1 1 1 ⟨1, 1⟩
    ⟨1, 1, 36000 * usPerSec, true⟩ (by decide) (by decide) (by decide)).2
    (by decide)

theorem map_updateFirst_preserve {α β : Type} (p : α → Bool) (f : α → α)
    (proj : α → β) (hf : ∀ a, proj (f a) = proj a) (l : List α) :
    (updateFirst p f l).map proj = l.map proj := by
  induction l with
  | nil => rfl
  | cons x xs ih =>
    by_cases hp : p x = true
    · simp [updateFirst, hp, hf]
    · simp [updateFirst, hp, ih]

theorem removeFirst_sublist {α : Type} (p : α → Bool) (l : List α) :
    List.Sublist (removeFirst p l) l := by
  induction l with
  | nil => exact List.Sublist.refl _
  | cons x xs ih =>
    by_cases hp : p x = true
    · rw [removeFirst, if_pos hp]
      exact List.sublist_cons_self x xs
    · rw [removeFirst, if_neg hp]
      exact List.Sublist.cons₂ x ih

theorem adicionarMerge_preserva (db : DB) (cid pid : Nat) (q : Int)
    (hu : CartUnique db) : CartUnique (adicionarMerge db cid pid q).db := by
  unfold adicionarMerge
  cases hf : db.carrinho.find?
      (fun c => c.cliente_id == cid && c.produto_id == pid) with
  | some c =>
    dsimp [AddCartResult.db]
    unfold CartUnique at hu ⊢
    dsimp only
    have hmap := map_updateFirst_preserve
      (fun c => c.cliente_id == cid && c.produto_id == pid)
      (fun c => { c with quantidade := c.quantidade + q })
      (fun c => (c.cliente_id, c.produto_id)) (fun a => rfl) db.carrinho
    rw [hmap]
    exact hu
  | none =>
    dsimp [AddCartResult.db]
    unfold CartUnique at hu ⊢
    dsimp only
    rw [List.map_append]
    rw [List.nodup_append]
    refine ⟨hu, List.nodup_singleton _, ?_⟩
    intro pr hpr hpr1
    simp only [List.map_cons, List.map_nil, List.mem_singleton] at hpr1
    subst hpr1
    simp only [List.mem_map] at hpr
    obtain ⟨c, hc, hcpair⟩ := hpr
    have hpred := List.find?_eq_none.mp hf c hc
    apply hpred
    have h1 : c.cliente_id = cid := congrArg Prod.fst hcpair
    have h2 : c.produto_id = pid := congrArg Prod.snd hcpair
    simp [h1, h2]

theorem adicionar_preserva (db : DB) (cid pid : Nat) (q : Int)
    (hu : CartUnique db) :
    CartUnique (adicionar_item_carrinho db cid pid q).db := by
  unfold adicionar_item_carrinho
  split
  · exact hu
  · split
    · exact hu
    · split
      · exact adicionarMerge_preserva db cid pid q hu
      · split
        · exact hu
        · split
          · exact hu
          · exact adicionarMerge_preserva db cid pid q hu

theorem remover_preserva (db : DB) (cid pid : Nat)
    (hu : CartUnique db) :
    CartUnique (remover_item_carrinho db cid pid).db := by
  unfold remover_item_carrinho
  split
  · exact hu
  · split
    · exact hu
    · unfold CartUnique at hu ⊢
      dsimp [RemoveCartResult.db]
      exact hu.sublist (List.Sublist.map _ (removeFirst_sublist _ _))

theorem finalizar_preserva (db : DB) (agora cid : Nat)
    (hu : CartUnique db) :
    CartUnique (finalizar_carrinho db agora cid).db := by
  unfold finalizar_carrinho
  simp only []
  split
  · exact hu
  · split
    · exact hu
    · exact hu
    · exact hu
    · unfold CartUnique at hu ⊢
      dsimp [CheckoutResult.db]
      exact hu.sublist (List.Sublist.map _ (List.filter_sublist _))

/-- C10: the cart holds at most one line per (customer, product) pair:
adding a product already in the customer's cart increments that line's
quantity in place instead of inserting a second line (main.py
1186-1195), and the uniqueness invariant is preserved by add, remove and
checkout's cart clearing. -/
theorem carrinho_unicidade (db : DB) (cid pid : Nat) (q : Int)
    (agora : Nat) :
    (∀ c produto, db.clientes.contains cid = true →
      findProduto db pid = some produto →
      (∀ primeiro rest,
        db.carrinho.filter (fun x => x.cliente_id == cid) =
          primeiro :: rest →
        ∃ p0, findProduto db primeiro.produto_id = some p0 ∧
          p0.loja_id = produto.loja_id) →
      db.carrinho.find?
        (fun x => x.cliente_id == cid && x.produto_id == pid) = some c →
      adicionar_item_carrinho db cid pid q =
        .ok { db with carrinho :=
          (updateFirst
            (fun x => x.cliente_id == cid && x.produto_id == pid)
            (fun x => { x with quantidade := x.quantidade + q })
            db.carrinho) }) ∧
    (CartUnique db →
      CartUnique (adicionar_item_carrinho db cid pid q).db ∧
      CartUnique (remover_item_carrinho db cid pid).db ∧
      CartUnique (finalizar_carrinho db agora cid).db) := by
  constructor
  · intro c produto hc hprod hstore hfind
    unfold adicionar_item_carrinho
    rw [if_neg (not_not_intro hc), hprod]
    dsimp only
    cases hfil : db.carrinho.filter (fun x => x.cliente_id == cid) with
    | nil =>
      exfalso
      have hmem : c ∈ db.carrinho := List.mem_of_find?_eq_some hfind
      have hpred := List.find?_some hfind
      simp only [Bool.and_eq_true] at hpred
      have hcli : c.cliente_id == cid := hpred.1
      have : c ∈ db.carrinho.filter (fun x => x.cliente_id == cid) :=
        List.mem_filter.mpr ⟨hmem, hcli⟩
      rw [hfil] at this
      cases this
    | cons primeiro rest =>
      obtain ⟨p0, hp0, hloja⟩ := hstore primeiro rest hfil
      dsimp only
      rw [hp0]
      dsimp only
      rw [if_neg (not_not_intro hloja)]
      unfold adicionarMerge
      rw [hfind]
  · intro hu
    exact ⟨adicionar_preserva db cid pid q hu,
      remover_preserva db cid pid hu,
      finalizar_preserva db agora cid hu⟩

theorem carrinho_unicidade_witness :
    adicionar_item_carrinho dbCarrinhoUm 1 1 3 =
      .ok { dbCarrinhoUm with carrinho :=
        (updateFirst (fun x => x.cliente_id == 1 && x.produto_id == 1)
          (fun x => { x with quantidade := x.quantidade + 3 })
          dbCarrinhoUm.carrinho) } ∧
    CartUnique (adicionar_item_carrinho dbCarrinhoUm 1 1 3).db := by
  have h := carrinho_unicidade dbCarrinhoUm 1 1 3 0
  refine ⟨?_, ?_⟩
  · exact h.1 ⟨1, 1, 1, 2⟩ ⟨1, nomeProdutoTeste, 10, 1, 5⟩ (by decide)
      (by decide)
      (fun primeiro rest hfil => by
        have hwit : dbCarrinhoUm.carrinho.filter
            (fun x => x.cliente_id == 1) = [⟨1, 1, 1, 2⟩] := by decide
        rw [hwit] at hfil
        injection hfil with h1 h2
        subst h1
        exact ⟨⟨1, nomeProdutoTeste, 10, 1, 5⟩, by decide, rfl⟩)
      (by decide)
  · exact (h.2 (by decide)).1

theorem find?_updateFirst_key {α : Type} (key : α → Nat) (f : α → α)
    (hf : ∀ a, key (f a) = key a) (tid pid : Nat) (l : List α) :
    (updateFirst (fun a => key a == tid) f l).find? (fun a => key a == pid) =
      if tid = pid then (l.find? (fun a => key a == pid)).map f
      else l.find? (fun a => key a == pid) := by
  induction l with
  | nil => simp [updateFirst]
  | cons x xs ih =>
    by_cases hx : key x = tid
    · rw [updateFirst, if_pos (by simp [hx])]
      by_cases htp : tid = pid
      · subst htp
        have hxp : (key (f x) == tid) = true := by simp [hf, hx]
        have hxp2 : (key x == tid) = true := by simp [hx]
        simp [List.find?_cons, hxp, hxp2]
      · have hxp : (key (f x) == pid) = false := by
          simp only [hf]
          simp [hx, htp]
        have hxp2 : (key x == pid) = false := by simp [hx, htp]
        simp [List.find?_cons, hxp, hxp2, htp]
    · rw [updateFirst, if_neg (by simp [hx])]
      by_cases hxp : key x = pid
      · have h1 : (key x == pid) = true := by simp [hxp]
        by_cases htp : tid = pid
        · exact absurd (htp ▸ hxp) hx
        · simp [List.find?_cons, h1, htp]
      · have h1 : (key x == pid) = false := by simp [hxp]
        simp [List.find?_cons, h1, ih]

theorem somaItens_nil (pid : Nat) : somaItens [] pid = 0 := rfl

theorem somaItens_cons (it : ItemReserva) (rest : List ItemReserva)
    (pid : Nat) :
    somaItens (it :: rest) pid =
      (if it.produto_id == pid then it.quantidade else 0) +
        somaItens rest pid := by
  by_cases h : (it.produto_id == pid) = true <;>
    simp [somaItens, List.filter_cons, h]

theorem findIn_restock_fold (itens : List ItemReserva)
    (ps : List Produto) (pid : Nat) :
    findProdutoIn (itens.foldl restockItem ps) pid =
      (findProdutoIn ps pid).map (fun p =>
        { p with quantidade_estoque :=
          p.quantidade_estoque + somaItens itens pid }) := by
  induction itens generalizing ps with
  | nil =>
    rw [List.foldl_nil]
    cases hf : findProdutoIn ps pid with
    | none => rfl
    | some p => simp [somaItens_nil]
  | cons it rest ih =>
    rw [List.foldl_cons, ih]
    have hstep := find?_updateFirst_key Produto.id
      (fun p => { p with quantidade_estoque :=
        p.quantidade_estoque + it.quantidade })
      (fun a => rfl) it.produto_id pid ps
    unfold restockItem
    unfold findProdutoIn
    rw [hstep]
    by_cases hpp : it.produto_id = pid
    · rw [if_pos hpp]
      cases hf : ps.find? (fun p => p.id == pid) with
      | none => rfl
      | some p =>
        have hb : (it.produto_id == pid) = true := by simp [hpp]
        simp [Option.map_some', somaItens_cons, hb]
        omega
    · rw [if_neg hpp]
      cases hf : ps.find? (fun p => p.id == pid) with
      | none => rfl
      | some p =>
        have hb : (it.produto_id == pid) = false := by simp [hpp]
        simp [Option.map_some', somaItens_cons, hb]

theorem findIn_sweep_folds (rs : List ReservaProduto) (db : DB)
    (ps : List Produto) (pid : Nat) :
    findProdutoIn
        (rs.foldl (fun acc r => (itensDe db r.id).foldl restockItem acc) ps)
        pid =
      (findProdutoIn ps pid).map (fun p =>
        { p with quantidade_estoque := p.quantidade_estoque +
          ((rs.map (fun r => somaItens (itensDe db r.id) pid)).sum) }) := by
  induction rs generalizing ps with
  | nil =>
    rw [List.foldl_nil]
    cases hf : findProdutoIn ps pid with
    | none => rfl
    | some p => simp
  | cons r rest ih =>
    rw [List.foldl_cons, ih, findIn_restock_fold]
    cases hf : findProdutoIn ps pid with
    | none => rfl
    | some p =>
      simp [Option.map_some', List.sum_cons]
      omega

theorem expirada2d_status (agora : Nat) (r : ReservaProduto) (s : String) :
    expirada2d agora { r with status := s } = expirada2d agora r := rfl

theorem expirada4d_status (agora : Nat) (r : ReservaProduto) (s : String) :
    expirada4d agora { r with status := s } = expirada4d agora r := rfl

/-- Composing the two sweep passes row by row: a row canceled by the
2-day pass is no longer RESERVADO, so the 4-day pass skips it; the net
effect on one row is a single cancel under the union of the two expiry
conditions. -/
theorem sweep_row_merge (lid agora : Nat) (r : ReservaProduto) :
    (fun x => if x.loja_id == lid && x.status == "RESERVADO" &&
        expirada4d agora x then { x with status := "CANCELADO" } else x)
      ((fun x => if x.loja_id == lid && x.status == "RESERVADO" &&
        expirada2d agora x then { x with status := "CANCELADO" } else x) r) =
    (if r.loja_id == lid && r.status == "RESERVADO" &&
        (expirada2d agora r || expirada4d agora r)
      then { r with status := "CANCELADO" } else r) := by
  cases ha : (r.loja_id == lid) <;>
    cases hb : (r.status == "RESERVADO") <;>
      cases he2 : expirada2d agora r <;>
        cases he4 : expirada4d agora r <;>
          simp [ha, hb, he2, he4, expirada2d_status, expirada4d_status]

/-- The 4-day filter evaluated after the 2-day pass selects exactly the
rows the 2-day pass left alone that satisfy the 4-day condition. -/
theorem sweep_cond_pass2 (lid agora : Nat) (r : ReservaProduto) :
    ((fun x => x.loja_id == lid && x.status == "RESERVADO" &&
        expirada4d agora x)
      ((fun x => if x.loja_id == lid && x.status == "RESERVADO" &&
        expirada2d agora x then { x with status := "CANCELADO" } else x) r))
    = (!(r.loja_id == lid && r.status == "RESERVADO" &&
        expirada2d agora r) &&
      (r.loja_id == lid && r.status == "RESERVADO" &&
        expirada4d agora r)) := by
  cases ha : (r.loja_id == lid) <;>
    cases hb : (r.status == "RESERVADO") <;>
      cases he2 : expirada2d agora r <;>
        cases he4 : expirada4d agora r <;>
          simp [ha, hb, he2, he4, expirada2d_status, expirada4d_status]

/-- Sums over two disjoint filters merge into the sum over their
union. -/
theorem sum_filter_disjoint {α : Type} (p q u : α → Bool)
    (hdis : ∀ a, p a = true → q a = false)
    (hu : ∀ a, u a = (p a || q a)) (f : α → Int) (rows : List α) :
    ((rows.filter p).map f).sum + ((rows.filter q).map f).sum =
      ((rows.filter u).map f).sum := by
  induction rows with
  | nil => simp
  | cons r rest ih =>
    cases hp : p r with
    | false =>
      cases hq : q r with
      | false =>
        rw [List.filter_cons_of_neg (by simp [hp]),
          List.filter_cons_of_neg (by simp [hq]),
          List.filter_cons_of_neg (by simp [hu r, hp, hq])]
        exact ih
      | true =>
        rw [List.filter_cons_of_neg (by simp [hp]),
          List.filter_cons_of_pos (by simp [hq]),
          List.filter_cons_of_pos (by simp [hu r, hp, hq]),
          List.map_cons, List.sum_cons, List.map_cons, List.sum_cons]
        omega
    | true =>
      have hqf := hdis r hp
      cases hq : q r with
      | false =>
        rw [List.filter_cons_of_pos (by simp [hp]),
          List.filter_cons_of_neg (by simp [hq]),
          List.filter_cons_of_pos (by simp [hu r, hp, hq]),
          List.map_cons, List.sum_cons, List.map_cons, List.sum_cons]
        omega
      | true => rw [hq] at hqf; exact absurd hqf (by simp)

/-- Splitting the per-reservation restock sum of the union condition
into the two disjoint pass contributions. -/
theorem sum_filter_union (rows : List ReservaProduto)
    (f : ReservaProduto → Int) (lid agora : Nat) :
    ((rows.filter (fun r => r.loja_id == lid && r.status == "RESERVADO" &&
        expirada2d agora r)).map f).sum +
    ((rows.filter (fun r =>
        !(r.loja_id == lid && r.status == "RESERVADO" &&
          expirada2d agora r) &&
        (r.loja_id == lid && r.status == "RESERVADO" &&
          expirada4d agora r))).map f).sum =
    ((rows.filter (fun r => r.loja_id == lid && r.status == "RESERVADO" &&
        (expirada2d agora r || expirada4d agora r))).map f).sum := by
  refine sum_filter_disjoint _ _ _ (fun a ha => by simp [ha]) (fun a => ?_)
    f rows
  cases hA : (a.loja_id == lid && a.status == "RESERVADO") <;>
    cases he2 : expirada2d agora a <;>
      cases he4 : expirada4d agora a <;>
        simp [hA, he2, he4]

/-- The 4-day pass's restock contributions, read off the rows the 2-day
pass produced, are exactly the contributions of the rows the 2-day pass
skipped that satisfy the 4-day condition. -/
theorem sweep_S4_eq (lid agora pid : Nat) (db : DB)
    (rows : List ReservaProduto) :
    ((rows.map (fun x => if x.loja_id == lid && x.status == "RESERVADO" &&
        expirada2d agora x then { x with status := "CANCELADO" }
        else x)).filter
      (fun r => r.loja_id == lid && r.status == "RESERVADO" &&
        expirada4d agora r)).map
      (fun r => somaItens (itensDe db r.id) pid) =
    (rows.filter (fun r =>
      !(r.loja_id == lid && r.status == "RESERVADO" &&
        expirada2d agora r) &&
      (r.loja_id == lid && r.status == "RESERVADO" &&
        expirada4d agora r))).map
      (fun r => somaItens (itensDe db r.id) pid) := by
  induction rows with
  | nil => rfl
  | cons r rest ih =>
    rw [List.map_cons]
    by_cases hc2 : (r.loja_id == lid && r.status == "RESERVADO" &&
        expirada2d agora r) = true
    · rw [if_pos hc2,
        List.filter_cons_of_neg (by simp),
        List.filter_cons_of_neg (by simp [hc2])]
      exact ih
    · rw [if_neg hc2]
      rw [Bool.not_eq_true] at hc2
      by_cases hc4 : (r.loja_id == lid && r.status == "RESERVADO" &&
          expirada4d agora r) = true
      · rw [List.filter_cons_of_pos (by simp [hc4]),
          List.filter_cons_of_pos (by simp [hc2, hc4]),
          List.map_cons, List.map_cons, ih]
      · rw [List.filter_cons_of_neg (by simp [hc4]),
          List.filter_cons_of_neg (by simp [hc2, hc4])]
        exact ih

theorem sweepPass_stock (db : DB) (lid agora : Nat)
    (exp : Nat → ReservaProduto → Bool) (pid : Nat) :
    findProduto (sweepPass db lid agora exp) pid =
      (findProduto db pid).map (fun p =>
        { p with quantidade_estoque := p.quantidade_estoque +
          ((db.reservasProdutos.filter (fun r => r.loja_id == lid &&
            r.status == "RESERVADO" && exp agora r)).map
            (fun r => somaItens (itensDe db r.id) pid)).sum }) :=
  findIn_sweep_folds _ db _ pid

/-- The reservation rows after a full sweep: exactly the RESERVADO rows
of the store satisfying either expiry condition flip to CANCELADO, the
rest are untouched. -/
theorem cancelar_rows (db : DB) (lid agora : Nat) :
    (cancelar_expiradas db lid agora).reservasProdutos =
      db.reservasProdutos.map (fun r =>
        if r.loja_id == lid && r.status == "RESERVADO" &&
            (expirada2d agora r || expirada4d agora r)
          then { r with status := "CANCELADO" } else r) := by
  show (db.reservasProdutos.map
      (fun x => if x.loja_id == lid && x.status == "RESERVADO" &&
        expirada2d agora x then { x with status := "CANCELADO" } else x)).map
      (fun x => if x.loja_id == lid && x.status == "RESERVADO" &&
        expirada4d agora x then { x with status := "CANCELADO" } else x) = _
  rw [List.map_map]
  exact List.map_congr_left (fun r _ => sweep_row_merge lid agora r)

/-- A full sweep leaves the line items untouched. -/
theorem cancelar_itens (db : DB) (lid agora : Nat) :
    (cancelar_expiradas db lid agora).itensReserva = db.itensReserva := rfl

/-- Stock after a full sweep: every product that exists gains exactly
the union-condition restock total. -/
theorem cancelar_stock (db : DB) (lid agora pid : Nat) :
    findProduto (cancelar_expiradas db lid agora) pid =
      (findProduto db pid).map (fun p =>
        { p with quantidade_estoque :=
          p.quantidade_estoque + restockTotal db lid agora pid }) := by
  have h2 := sweepPass_stock (sweepPass db lid agora expirada2d) lid agora
    expirada4d pid
  have h1 := sweepPass_stock db lid agora expirada2d pid
  have hS4 : ((sweepPass db lid agora expirada2d).reservasProdutos.filter
        (fun r => r.loja_id == lid && r.status == "RESERVADO" &&
          expirada4d agora r)).map
      (fun r => somaItens
        (itensDe (sweepPass db lid agora expirada2d) r.id) pid) =
      (db.reservasProdutos.filter (fun r =>
        !(r.loja_id == lid && r.status == "RESERVADO" &&
          expirada2d agora r) &&
        (r.loja_id == lid && r.status == "RESERVADO" &&
          expirada4d agora r))).map
      (fun r => somaItens (itensDe db r.id) pid) := by
    show ((db.reservasProdutos.map
        (fun x => if x.loja_id == lid && x.status == "RESERVADO" &&
          expirada2d agora x then { x with status := "CANCELADO" }
          else x)).filter
        (fun r => r.loja_id == lid && r.status == "RESERVADO" &&
          expirada4d agora r)).map
      (fun r => somaItens (itensDe db r.id) pid) = _
    exact sweep_S4_eq lid agora pid db db.reservasProdutos
  show findProduto (sweepPass (sweepPass db lid agora expirada2d) lid agora
    expirada4d) pid = _
  rw [h2, hS4, h1]
  cases hf : findProduto db pid with
  | none => rfl
  | some p =>
    simp only [Option.map_some', Option.some.injEq, Produto.mk.injEq,
      true_and]
    have hsum := sum_filter_union db.reservasProdutos
      (fun r => somaItens (itensDe db r.id) pid) lid agora
    unfold restockTotal
    omega

/-- A sweep pass over a store in which no reservation satisfies its
filter changes nothing. -/
theorem sweepPass_no_op (db : DB) (lid agora : Nat)
    (exp : Nat → ReservaProduto → Bool)
    (h : ∀ r ∈ db.reservasProdutos,
      (r.loja_id == lid && r.status == "RESERVADO" && exp agora r) =
        false) :
    sweepPass db lid agora exp = db := by
  unfold sweepPass
  rw [List.filter_eq_nil_iff.mpr (fun r hr => by simp [h r hr]),
    List.foldl_nil]
  have hmap : db.reservasProdutos.map
      (fun r => if r.loja_id == lid && r.status == "RESERVADO" &&
        exp agora r then { r with status := "CANCELADO" } else r) =
      db.reservasProdutos := by
    have hid : db.reservasProdutos.map
        (fun r => if r.loja_id == lid && r.status == "RESERVADO" &&
          exp agora r then { r with status := "CANCELADO" } else r) =
        db.reservasProdutos.map id :=
      List.map_congr_left (fun r hr => by simp [h r hr])
    rw [hid, List.map_id]
  rw [hmap]

/-- After a full sweep no remaining row satisfies either expiry filter
again. -/
theorem cancelar_cond_false (db : DB) (lid agora : Nat) :
    ∀ x ∈ (cancelar_expiradas db lid agora).reservasProdutos,
      (x.loja_id == lid && x.status == "RESERVADO" &&
        expirada2d agora x) = false ∧
      (x.loja_id == lid && x.status == "RESERVADO" &&
        expirada4d agora x) = false := by
  intro x hx
  rw [cancelar_rows] at hx
  simp only [List.mem_map] at hx
  obtain ⟨r, hr, hgx⟩ := hx
  subst hgx
  cases ha : (r.loja_id == lid) <;>
    cases hb : (r.status == "RESERVADO") <;>
      cases he2 : expirada2d agora r <;>
        cases he4 : expirada4d agora r <;>
          simp [ha, hb, he2, he4, expirada2d_status, expirada4d_status]

/-- C4: `cancelar_expiradas` (main.py 537-584) cancels exactly the
RESERVADO reservations of the store satisfying `now > expiry` OR
`now > creation + 4 days` — the union of the two conditions — leaves
rows in any other status (and rows failing both conditions) untouched,
keeps the line items intact, and adds each canceled reservation's line
quantities back to the corresponding products' stock, once.  The
hypothesis pins the states on which the model is faithful: every line
item's product exists (on other states the Python loop would die with an
attribute error instead of completing the sweep). -/
theorem sweep_exato (db : DB) (lid agora : Nat)
    (_hwf : ∀ it ∈ db.itensReserva, ∃ p ∈ db.produtos,
      p.id = it.produto_id) :
    (cancelar_expiradas db lid agora).reservasProdutos =
      db.reservasProdutos.map (fun r =>
        if r.loja_id == lid && r.status == "RESERVADO" &&
            (expirada2d agora r || expirada4d agora r)
          then { r with status := "CANCELADO" } else r) ∧
    (cancelar_expiradas db lid agora).itensReserva = db.itensReserva ∧
    ∀ pid p, findProduto db pid = some p →
      findProduto (cancelar_expiradas db lid agora) pid =
        some { p with quantidade_estoque :=
          p.quantidade_estoque + restockTotal db lid agora pid } :=
  ⟨cancelar_rows db lid agora, cancelar_itens db lid agora,
    fun pid p hp => by rw [cancelar_stock, hp]; rfl⟩

/-- C5: the sweep is idempotent — run twice at the same clock reading it
yields exactly the state of one run; in particular nothing is restocked
twice, since canceled rows are excluded from both scans of the second
run.  The hypothesis pins the states on which the model is faithful, as
in `sweep_exato`. -/
theorem sweep_idempotente (db : DB) (lid agora : Nat)
    (_hwf : ∀ it ∈ db.itensReserva, ∃ p ∈ db.produtos,
      p.id = it.produto_id) :
    cancelar_expiradas (cancelar_expiradas db lid agora) lid agora =
      cancelar_expiradas db lid agora := by
  have hcond := cancelar_cond_false db lid agora
  show sweepPass (sweepPass (cancelar_expiradas db lid agora) lid agora
    expirada2d) lid agora expirada4d = cancelar_expiradas db lid agora
  rw [sweepPass_no_op _ _ _ _ (fun r hr => (hcond r hr).1)]
  exact sweepPass_no_op _ _ _ _ (fun r hr => (hcond r hr).2)

theorem sweep_exato_witness :
    (cancelar_expiradas dbVarredura 1 (5 * dayUs)).reservasProdutos =
      [⟨1, 1, 1, 0, "CANCELADO", some 10⟩,
        ⟨2, 1, 1, 0, "CANCELADO", some (10 * dayUs)⟩,
        ⟨3, 1, 1, 0, "RETIRADO", some 10⟩] ∧
    findProduto (cancelar_expiradas dbVarredura 1 (5 * dayUs)) 1 =
      some ⟨1, nomeProdutoTeste, 10, 1, 8⟩ ∧
    findProduto (cancelar_expiradas dbVarredura 1 (5 * dayUs)) 2 =
      some ⟨2, nomeProdutoTeste, 20, 1, 11⟩ := by
  have h := sweep_exato dbVarredura 1 (5 * dayUs) (by decide)
  refine ⟨?_, ?_, ?_⟩
  · rw [h.1]
    decide
  · rw [h.2.2 1 ⟨1, nomeProdutoTeste, 10, 1, 5⟩ (by decide)]
    decide
  · rw [h.2.2 2 ⟨2, nomeProdutoTeste, 20, 1, 7⟩ (by decide)]
    decide

theorem sweep_idempotente_witness :
    cancelar_expiradas (cancelar_expiradas dbVarredura 1 (5 * dayUs)) 1
      (5 * dayUs) = cancelar_expiradas dbVarredura 1 (5 * dayUs) :=
  sweep_idempotente dbVarredura 1 (5 * dayUs) (by decide)

theorem somaCarrinho_nil (pid : Nat) : somaCarrinho [] pid = 0 := rfl

theorem somaCarrinho_cons (it : Carrinho) (rest : List Carrinho)
    (pid : Nat) :
    somaCarrinho (it :: rest) pid =
      (if it.produto_id == pid then it.quantidade else 0) +
        somaCarrinho rest pid := by
  by_cases h : (it.produto_id == pid) = true <;>
    simp [somaCarrinho, List.filter_cons, h]

theorem findIn_abater_fold (itens : List Carrinho)
    (ps : List Produto) (pid : Nat) :
    findProdutoIn (itens.foldl abaterItem ps) pid =
      (findProdutoIn ps pid).map (fun p =>
        { p with quantidade_estoque :=
          p.quantidade_estoque - somaCarrinho itens pid }) := by
  induction itens generalizing ps with
  | nil =>
    rw [List.foldl_nil]
    cases hf : findProdutoIn ps pid with
    | none => rfl
    | some p => simp [somaCarrinho_nil]
  | cons it rest ih =>
    rw [List.foldl_cons, ih]
    have hstep := find?_updateFirst_key Produto.id
      (fun p => { p with quantidade_estoque :=
        p.quantidade_estoque - it.quantidade })
      (fun a => rfl) it.produto_id pid ps
    unfold abaterItem
    unfold findProdutoIn
    rw [hstep]
    by_cases hpp : it.produto_id = pid
    · rw [if_pos hpp]
      cases hf : ps.find? (fun p => p.id == pid) with
      | none => rfl
      | some p =>
        have hb : (it.produto_id == pid) = true := by simp [hpp]
        simp [Option.map_some', somaCarrinho_cons, hb]
        omega
    · rw [if_neg hpp]
      cases hf : ps.find? (fun p => p.id == pid) with
      | none => rfl
      | some p =>
        have hb : (it.produto_id == pid) = false := by simp [hpp]
        simp [Option.map_some', somaCarrinho_cons, hb]

/-- The checkout validation loop accepts a cart whose every line names
an existing product of the accumulated store with enough stock. -/
theorem validarItens_ok (db : DB) (lid : Nat) (itens : List Carrinho)
    (hall : ∀ it ∈ itens, ∃ p, findProduto db it.produto_id = some p ∧
      p.loja_id = lid ∧ it.quantidade ≤ p.quantidade_estoque) :
    validarItens db (some lid) itens = .ok (some lid) := by
  induction itens with
  | nil => rfl
  | cons it rest ih =>
    obtain ⟨p, hp, hlid, hq⟩ := hall it (List.mem_cons_self _ _)
    unfold validarItens
    rw [hp]
    dsimp only
    rw [if_neg (not_not_intro hlid), if_neg (by omega)]
    exact ih (fun x hx => hall x (List.mem_cons_of_mem _ hx))

theorem validarItens_start (db : DB) (lid : Nat) (itens : List Carrinho)
    (hne : itens ≠ [])
    (hall : ∀ it ∈ itens, ∃ p, findProduto db it.produto_id = some p ∧
      p.loja_id = lid ∧ it.quantidade ≤ p.quantidade_estoque) :
    validarItens db none itens = .ok (some lid) := by
  cases itens with
  | nil => exact absurd rfl hne
  | cons it rest =>
    obtain ⟨p, hp, hlid, hq⟩ := hall it (List.mem_cons_self _ _)
    unfold validarItens
    rw [hp]
    dsimp only
    rw [if_neg (by omega), hlid]
    exact validarItens_ok db lid rest
      (fun x hx => hall x (List.mem_cons_of_mem _ hx))

/-- The line-item creation loop produces one item per cart line, tied to
the new reservation, copying the line quantity and snapshotting the
price the product had in the pre-checkout store. -/
theorem criarItens_spec (dbA dbB : DB) (rid : Nat)
    (itens : List Carrinho)
    (hpre : ∀ it ∈ itens, ∃ q, findProduto dbB it.produto_id = some q ∧
      q.id = it.produto_id ∧ ∃ p, findProduto dbA it.produto_id = some p ∧
        q.preco = p.preco) :
    ∀ nid, List.Forall₂ (fun (x : ItemReserva) (it : Carrinho) =>
      x.reserva_id = rid ∧ x.produto_id = it.produto_id ∧
      x.quantidade = it.quantidade ∧
      ∃ p, findProduto dbA it.produto_id = some p ∧
        x.preco_unitario = p.preco)
      (criarItens dbB rid nid itens) itens := by
  induction itens with
  | nil => intro nid; exact List.Forall₂.nil
  | cons it rest ih =>
    intro nid
    obtain ⟨q, hq, hqid, p, hp, hpreco⟩ := hpre it (List.mem_cons_self _ _)
    unfold criarItens
    rw [hq]
    dsimp only
    exact List.Forall₂.cons ⟨rfl, hqid, rfl, ⟨p, hp, hpreco⟩⟩
      (ih (fun x hx => hpre x (List.mem_cons_of_mem _ hx)) (nid + 1))

/-- C1: on a non-empty cart whose every line names an existing product
of the one store `lid` with `quantity ≤ stock`, checkout succeeds and
returns the fresh reservation id and the expiry `now + 2 days`; it
appends exactly one reservation (status RESERVADO, owned by the customer
and the store, expiry two days after creation), creates one line item
per cart line snapshotting the pre-checkout unit price, decrements every
product's stock by the total quantity its cart lines request (its one
line's quantity, line uniqueness given), and deletes exactly the
customer's cart lines.  (main.py 1286-1368.) -/
theorem checkout_sucesso (db : DB) (agora cid lid : Nat)
    (hne : db.carrinho.filter (fun c => c.cliente_id == cid) ≠ [])
    (hall : ∀ it ∈ db.carrinho.filter (fun c => c.cliente_id == cid),
      ∃ p, findProduto db it.produto_id = some p ∧ p.loja_id = lid ∧
        it.quantidade ≤ p.quantidade_estoque) :
    ∃ db' novos,
      finalizar_carrinho db agora cid =
        .ok db' db.nextReservaProdutoId (agora + 2 * dayUs) ∧
      db'.reservasProdutos = db.reservasProdutos ++
        [⟨db.nextReservaProdutoId, cid, lid, agora, "RESERVADO",
          some (agora + 2 * dayUs)⟩] ∧
      db'.itensReserva = db.itensReserva ++ novos ∧
      List.Forall₂ (fun (x : ItemReserva) (it : Carrinho) =>
        x.reserva_id = db.nextReservaProdutoId ∧
        x.produto_id = it.produto_id ∧ x.quantidade = it.quantidade ∧
        ∃ p, findProduto db it.produto_id = some p ∧
          x.preco_unitario = p.preco)
        novos (db.carrinho.filter (fun c => c.cliente_id == cid)) ∧
      (∀ pid p, findProduto db pid = some p →
        findProduto db' pid = some { p with quantidade_estoque :=
          (p.quantidade_estoque - somaCarrinho
            (db.carrinho.filter (fun c => c.cliente_id == cid)) pid) }) ∧
      db'.carrinho = db.carrinho.filter (fun c => ¬ c.cliente_id == cid)
      := by
  have hne' : ¬ (db.carrinho.filter
      (fun c => c.cliente_id == cid)).isEmpty = true := by
    simpa [List.isEmpty_iff] using hne
  have hval := validarItens_start db lid _ hne hall
  refine
    ⟨{ db with
        produtos := (db.carrinho.filter
          (fun c => c.cliente_id == cid)).foldl abaterItem db.produtos,
        reservasProdutos := db.reservasProdutos ++
          [⟨db.nextReservaProdutoId, cid, lid, agora, "RESERVADO",
            some (agora + 2 * dayUs)⟩],
        nextReservaProdutoId := db.nextReservaProdutoId + 1,
        itensReserva := db.itensReserva ++
          (criarItens
            { db with
              produtos := (db.carrinho.filter
                (fun c => c.cliente_id == cid)).foldl abaterItem
                db.produtos,
              reservasProdutos := db.reservasProdutos ++
                [⟨db.nextReservaProdutoId, cid, lid, agora, "RESERVADO",
                  some (agora + 2 * dayUs)⟩],
              nextReservaProdutoId := db.nextReservaProdutoId + 1 }
            db.nextReservaProdutoId db.nextItemReservaId
            (db.carrinho.filter (fun c => c.cliente_id == cid))),
        nextItemReservaId := db.nextItemReservaId +
          (criarItens
            { db with
              produtos := (db.carrinho.filter
                (fun c => c.cliente_id == cid)).foldl abaterItem
                db.produtos,
              reservasProdutos := db.reservasProdutos ++
                [⟨db.nextReservaProdutoId, cid, lid, agora, "RESERVADO",
                  some (agora + 2 * dayUs)⟩],
              nextReservaProdutoId := db.nextReservaProdutoId + 1 }
            db.nextReservaProdutoId db.nextItemReservaId
            (db.carrinho.filter (fun c => c.cliente_id == cid))).length,
        carrinho := db.carrinho.filter
          (fun c => ¬ c.cliente_id == cid) },
      criarItens
        { db with
          produtos := (db.carrinho.filter
            (fun c => c.cliente_id == cid)).foldl abaterItem db.produtos,
          reservasProdutos := db.reservasProdutos ++
            [⟨db.nextReservaProdutoId, cid, lid, agora, "RESERVADO",
              some (agora + 2 * dayUs)⟩],
          nextReservaProdutoId := db.nextReservaProdutoId + 1 }
        db.nextReservaProdutoId db.nextItemReservaId
        (db.carrinho.filter (fun c => c.cliente_id == cid)),
      ?heq, rfl, rfl, ?hfa, ?hstock, rfl⟩
  case heq =>
    unfold finalizar_carrinho
    simp only []
    rw [if_neg hne', hval]
    rfl
  case hfa =>
    apply criarItens_spec
    intro it hit
    obtain ⟨p, hp, hlid, hq⟩ := hall it hit
    refine ⟨{ p with quantidade_estoque :=
      (p.quantidade_estoque - somaCarrinho
        (db.carrinho.filter (fun c => c.cliente_id == cid))
        it.produto_id) }, ?_, ?_, ⟨p, hp, rfl⟩⟩
    · show findProdutoIn
        ((db.carrinho.filter (fun c => c.cliente_id == cid)).foldl
          abaterItem db.produtos) it.produto_id = _
      rw [findIn_abater_fold]
      rw [show findProdutoIn db.produtos it.produto_id = some p from hp]
      rfl
    · have hbeq := List.find?_some hp
      simpa using hbeq
  case hstock =>
    intro pid p hp
    show findProdutoIn
      ((db.carrinho.filter (fun c => c.cliente_id == cid)).foldl
        abaterItem db.produtos) pid = _
    rw [findIn_abater_fold,
      show findProdutoIn db.produtos pid = some p from hp]
    rfl

theorem checkout_sucesso_witness :
    ∃ db' novos,
      finalizar_carrinho dbCompra 100 1 = .ok db' 1 (100 + 2 * dayUs) ∧
      db'.reservasProdutos =
        [⟨1, 1, 1, 100, "RESERVADO", some (100 + 2 * dayUs)⟩] ∧
      db'.itensReserva = [] ++ novos ∧
      List.Forall₂ (fun (x : ItemReserva) (it : Carrinho) =>
        x.reserva_id = 1 ∧ x.produto_id = it.produto_id ∧
        x.quantidade = it.quantidade ∧
        ∃ p, findProduto dbCompra it.produto_id = some p ∧
          x.preco_unitario = p.preco)
        novos (dbCompra.carrinho.filter (fun c => c.cliente_id == 1)) ∧
      (∀ pid p, findProduto dbCompra pid = some p →
        findProduto db' pid = some { p with quantidade_estoque :=
          (p.quantidade_estoque - somaCarrinho
            (dbCompra.carrinho.filter (fun c => c.cliente_id == 1)) pid) }) ∧
      db'.carrinho = dbCompra.carrinho.filter
        (fun c => ¬ c.cliente_id == 1) := by
  have h := checkout_sucesso dbCompra 100 1 1 (by decide)
    (by
      intro it hit
      refine ⟨⟨1, nomeProdutoTeste, 10, 1, 5⟩, ?_, rfl, ?_⟩ <;>
        · have : it = (⟨1, 1, 1, 3⟩ : Carrinho) := by
            have hfil : dbCompra.carrinho.filter
                (fun c => c.cliente_id == 1) = [⟨1, 1, 1, 3⟩] := by decide
            rw [hfil] at hit
            simpa using hit
          subst this
          decide)
  exact h

end BikeStore
